import Mathlib

/- Shallow embedding of gorm-pageable (src/pagable.go).

   The library computes pagination metadata over an external data source.
   We model the data source as the list of rows matching the callers query
   descriptor: `Count` returns its length and `Limit(l).Offset(o).Find`
   writes the corresponding slice into the destination buffer.  Destination
   buffers live in an explicit store `mem : Nat → List T`; a `Response`
   holds the buffer id (`ResultSet` is a pointer in Go) and the query
   handler, exactly as the Go struct does.

   Machine integers are modelled as `Int`; Go integer division and modulo
   truncate toward zero, which is `Int.tdiv` / `Int.tmod`.  Go panics on
   division by zero; in `PageQuery` the deferred recovery handler swallows
   such a panic and the function returns nil, which we model as `none`
   (the buffer write by `Find` has already happened at that point, so the
   store update is kept).

   Process-wide configuration (`defaultRpp`, set by `SetDefaultRPP`, and
   `use0Page`, set by `Use0AsFirstPage`) is passed as an explicit `Config`
   value; the initial configuration is `Config.default` (defaultRpp = 25,
   use0Page = false) per the `init` function of the package. -/

namespace Pageable

/-- Process-wide configuration of the package: the default rows-per-page
(`defaultRpp`, initialized to 25 and kept ≥ 1 by `SetDefaultRPP`) and the
first-page convention flag set by `Use0AsFirstPage`. -/
structure Config where
  defaultRpp : Int
  use0Page : Bool
  deriving Repr, DecidableEq

/-- The configuration installed by the package `init`: default rpp 25,
first page is 1. -/
def Config.default : Config := { defaultRpp := 25, use0Page := false }

/-- The external data source behind a `*gorm.DB` handler: the full ordered
list of rows matching the callers filters. -/
structure DataSource (T : Type) where
  rows : List T
  deriving Repr, DecidableEq

/-- `queryHandler.Count(&count64)`: the total number of matching rows. -/
def dsCount {T : Type} (ds : DataSource T) : Int := ds.rows.length

/-- `queryHandler.Limit(limit).Offset(offset).Find(resultPtr)`: the slice of
rows selected by the SQL LIMIT/OFFSET window. -/
def fetchRange {T : Type} (ds : DataSource T) (limit offset : Int) : List T :=
  (ds.rows.drop offset.toNat).take limit.toNat

/-- The `Response` struct of src/pagable.go.  `ResultSet` is the buffer id
the result pointer refers to; `handler` is the stored query handler. -/
structure Response (T : Type) where
  PageNow : Int
  PageCount : Int
  RawCount : Int
  RawPerPage : Int
  ResultSet : Nat
  FirstPage : Bool
  LastPage : Bool
  Empty : Bool
  StartRow : Int
  EndRow : Int
  handler : DataSource T
  deriving Repr, DecidableEq

/-- `getLimitOffset` of src/pagable.go: clamp a negative page to 0, replace
an rpp below 1 by the configured default, return `(rpp, page * rpp)`. -/
def getLimitOffset (page rpp defaultRpp : Int) : Int × Int :=
  let page := if page < 0 then 0 else page
  let rpp := if rpp < 1 then defaultRpp else rpp
  (rpp, page * rpp)

/-- The page-count computation inside `PageQuery`:
`PageCount := count / rawPerPage; if count % rawPerPage != 0 { PageCount++ }`
with Go (truncating) division.  Only called with `rawPerPage ≠ 0`; on 0 the
Go code panics before reaching it. -/
def goPageCount (count rawPerPage : Int) : Int :=
  count.tdiv rawPerPage + (if count.tmod rawPerPage ≠ 0 then 1 else 0)

/-- The `Response` literal built at the end of `PageQuery`, for a given
requested page, per-call rpp, total row count, buffer id and handler.
Field by field it is the struct literal of src/pagable.go lines 142-168. -/
def pageResponse {T : Type} (page rawPerPage count : Int) (resultPtr : Nat)
    (queryHandler : DataSource T) : Response T :=
  let PageCount := goPageCount count rawPerPage
  let empty := page > PageCount ∨ count = 0
  let lastPage := page = PageCount
  let startRow := if ¬ empty then page * rawPerPage else 0
  let endRow :=
    if ¬ empty then (if ¬ lastPage then (page + 1) * rawPerPage - 1 else count)
    else 0
  { PageNow := page
    PageCount := PageCount
    RawPerPage := rawPerPage
    RawCount := count
    ResultSet := resultPtr
    FirstPage := decide (page = 1)
    LastPage := decide lastPage
    Empty := decide empty
    StartRow := startRow
    EndRow := endRow
    handler := queryHandler }

/-- The limit/offset selection at the top of `PageQuery`: under the default
convention the page passed to `getLimitOffset` is `page - 1`, under the
`Use0AsFirstPage` convention it is `page` itself. -/
def pqWindow (cfg : Config) (page rawPerPage : Int) : Int × Int :=
  if ¬ cfg.use0Page then getLimitOffset (page - 1) rawPerPage cfg.defaultRpp
  else getLimitOffset page rawPerPage cfg.defaultRpp

/-- `PageQuery` of src/pagable.go.  Returns the new buffer store (the `Find`
call overwrites the destination buffer) together with the result: `some`
response on success, `none` when the page-count division panics on
`rawPerPage = 0` (the deferred recovery swallows the panic and the function
returns nil, nil; the `Find` into the destination buffer has already
happened at that point). -/
def PageQuery {T : Type} (cfg : Config) (page rawPerPage : Int)
    (queryHandler : DataSource T) (resultPtr : Nat) (mem : Nat → List T) :
    Option (Response T) × (Nat → List T) :=
  let lo := pqWindow cfg page rawPerPage
  let count : Int := dsCount queryHandler
  let fetched := fetchRange queryHandler lo.1 lo.2
  let mem' : Nat → List T := fun n => if n = resultPtr then fetched else mem n
  if rawPerPage = 0 then (none, mem')
  else (some (pageResponse page rawPerPage count resultPtr queryHandler), mem')

/-- `(*Response).GetNextPage`: fetch page `PageNow + 1` with the stored
rpp, handler and result buffer. -/
def Response.GetNextPage {T : Type} (cfg : Config) (r : Response T)
    (mem : Nat → List T) : Option (Response T) × (Nat → List T) :=
  PageQuery cfg (r.PageNow + 1) r.RawPerPage r.handler r.ResultSet mem

/-- `(*Response).GetLastPage` (the previous page): fetch page `PageNow - 1`
with the stored rpp, handler and result buffer. -/
def Response.GetLastPage {T : Type} (cfg : Config) (r : Response T)
    (mem : Nat → List T) : Option (Response T) × (Nat → List T) :=
  PageQuery cfg (r.PageNow - 1) r.RawPerPage r.handler r.ResultSet mem

/-- `(*Response).GetEndPage`: fetch page `PageCount`. -/
def Response.GetEndPage {T : Type} (cfg : Config) (r : Response T)
    (mem : Nat → List T) : Option (Response T) × (Nat → List T) :=
  PageQuery cfg r.PageCount r.RawPerPage r.handler r.ResultSet mem

/-- `(*Response).GetFirstPage`: fetch page 0 or 1 per the configured
first-page convention. -/
def Response.GetFirstPage {T : Type} (cfg : Config) (r : Response T)
    (mem : Nat → List T) : Option (Response T) × (Nat → List T) :=
  PageQuery cfg (if cfg.use0Page then 0 else 1) r.RawPerPage r.handler
    r.ResultSet mem

/-- A data source of `n` identical unit rows, for concrete evaluations. -/
def unitRows (n : Nat) : DataSource Unit := { rows := List.replicate n () }

/-- An empty buffer store. -/
def emptyMem : Nat → List Unit := fun _ => []

/-- The configuration after calling `Use0AsFirstPage()` (default rpp kept
at 25). -/
def cfg0idx : Config := { defaultRpp := 25, use0Page := true }

/-- The response returned by `PageQuery(1, 25, handler, ptr)` against a
table of 100 rows under the default configuration: the first page per the
default 1-indexed convention. -/
def rFirst : Response Unit := pageResponse 1 25 100 0 (unitRows 100)

/-- A two-row data source with distinguishable rows. -/
def dsPair : DataSource Bool := { rows := [true, false] }

/-- An empty Bool buffer store. -/
def memB : Nat → List Bool := fun _ => []

/-- The response of fetching page 1 (rpp 1) of `dsPair` under the default
configuration. -/
def r8 : Response Bool := pageResponse 1 1 2 0 dsPair

/-- The buffer store after that first fetch: buffer 0 holds page 1. -/
def mem8 : Nat → List Bool := (PageQuery Config.default 1 1 dsPair 0 memB).2

/-! Helper lemmas about the embedding. -/

theorem dsCount_nonneg {T : Type} (ds : DataSource T) : 0 ≤ dsCount ds := by
  simp [dsCount]

theorem pageResponse_PageNow {T : Type} (p s c : ℤ) (ptr : Nat)
    (ds : DataSource T) : (pageResponse p s c ptr ds).PageNow = p := rfl

theorem pageResponse_PageCount {T : Type} (p s c : ℤ) (ptr : Nat)
    (ds : DataSource T) :
    (pageResponse p s c ptr ds).PageCount = goPageCount c s := rfl

theorem pageResponse_RawCount {T : Type} (p s c : ℤ) (ptr : Nat)
    (ds : DataSource T) : (pageResponse p s c ptr ds).RawCount = c := rfl

theorem pageResponse_RawPerPage {T : Type} (p s c : ℤ) (ptr : Nat)
    (ds : DataSource T) : (pageResponse p s c ptr ds).RawPerPage = s := rfl

theorem pageResponse_ResultSet {T : Type} (p s c : ℤ) (ptr : Nat)
    (ds : DataSource T) : (pageResponse p s c ptr ds).ResultSet = ptr := rfl

theorem pageResponse_handler {T : Type} (p s c : ℤ) (ptr : Nat)
    (ds : DataSource T) : (pageResponse p s c ptr ds).handler = ds := rfl

theorem pageResponse_FirstPage {T : Type} (p s c : ℤ) (ptr : Nat)
    (ds : DataSource T) :
    (pageResponse p s c ptr ds).FirstPage = decide (p = 1) := rfl

theorem pageResponse_LastPage {T : Type} (p s c : ℤ) (ptr : Nat)
    (ds : DataSource T) :
    (pageResponse p s c ptr ds).LastPage = decide (p = goPageCount c s) := rfl

theorem pageResponse_Empty {T : Type} (p s c : ℤ) (ptr : Nat)
    (ds : DataSource T) :
    (pageResponse p s c ptr ds).Empty
      = decide (p > goPageCount c s ∨ c = 0) := rfl

theorem pageResponse_StartRow {T : Type} (p s c : ℤ) (ptr : Nat)
    (ds : DataSource T) :
    (pageResponse p s c ptr ds).StartRow
      = if ¬ (p > goPageCount c s ∨ c = 0) then p * s else 0 := rfl

theorem pageResponse_EndRow {T : Type} (p s c : ℤ) (ptr : Nat)
    (ds : DataSource T) :
    (pageResponse p s c ptr ds).EndRow
      = if ¬ (p > goPageCount c s ∨ c = 0)
        then (if ¬ p = goPageCount c s then (p + 1) * s - 1 else c)
        else 0 := rfl

theorem PageQuery_isSome {T : Type} (cfg : Config) (page rawPerPage : Int)
    (ds : DataSource T) (ptr : Nat) (mem : Nat → List T)
    (h : rawPerPage ≠ 0) :
    (PageQuery cfg page rawPerPage ds ptr mem).1
      = some (pageResponse page rawPerPage (dsCount ds) ptr ds) := by
  simp [PageQuery, h]

theorem PageQuery_snd {T : Type} (cfg : Config) (page rawPerPage : Int)
    (ds : DataSource T) (ptr : Nat) (mem : Nat → List T) :
    (PageQuery cfg page rawPerPage ds ptr mem).2
      = fun n => if n = ptr
          then fetchRange ds (pqWindow cfg page rawPerPage).1
            (pqWindow cfg page rawPerPage).2
          else mem n := by
  by_cases h0 : rawPerPage = 0 <;> simp [PageQuery, h0]

theorem goPageCount_nonneg (c s : ℤ) (hc : 0 ≤ c) (hs : 1 ≤ s) :
    0 ≤ goPageCount c s := by
  have h1 : 0 ≤ c.tdiv s := Int.tdiv_nonneg hc (by omega)
  unfold goPageCount
  split <;> omega

theorem goPageCount_eq_ceil (c s : ℤ) (hc : 0 ≤ c) (hs : 1 ≤ s) :
    goPageCount c s = ⌈(c : ℚ) / (s : ℚ)⌉ := by
  have hs0 : (0 : ℤ) < s := by omega
  have hsQ : (0 : ℚ) < (s : ℚ) := by exact_mod_cast hs0
  have hkey : s * c.tdiv s + c.tmod s = c := Int.tdiv_add_tmod c s
  have hm0 : 0 ≤ c.tmod s := Int.tmod_nonneg s hc
  have hms : c.tmod s < s := Int.tmod_lt_of_pos c hs0
  by_cases hm : c.tmod s = 0
  · have hcZ : c = s * c.tdiv s := by omega
    have hcq : (c : ℚ) = (s : ℚ) * ((c.tdiv s : ℤ) : ℚ) := by exact_mod_cast hcZ
    rw [goPageCount, if_neg (by simp [hm]), hcq,
      mul_div_cancel_left₀ _ (ne_of_gt hsQ), Int.ceil_intCast, add_zero]
  · have hm1 : 0 < c.tmod s := lt_of_le_of_ne hm0 (Ne.symm hm)
    have hkeyQ : (s : ℚ) * ((c.tdiv s : ℤ) : ℚ) + ((c.tmod s : ℤ) : ℚ)
        = (c : ℚ) := by exact_mod_cast hkey
    have hmQ : (0 : ℚ) < ((c.tmod s : ℤ) : ℚ) := by exact_mod_cast hm1
    have hmsQ : ((c.tmod s : ℤ) : ℚ) < (s : ℚ) := by exact_mod_cast hms
    rw [goPageCount, if_pos hm]
    symm
    rw [Int.ceil_eq_iff]
    constructor
    · push_cast
      have hgoal : ((c.tdiv s : ℤ) : ℚ) * (s : ℚ) < (c : ℚ) := by nlinarith
      calc ((c.tdiv s : ℤ) : ℚ) + 1 - 1 = ((c.tdiv s : ℤ) : ℚ) := by ring
        _ < (c : ℚ) / (s : ℚ) := (lt_div_iff₀ hsQ).mpr hgoal
    · push_cast
      rw [div_le_iff₀ hsQ]
      nlinarith

theorem goPageCount_eq_zero_iff (c s : ℤ) (hc : 0 ≤ c) (hs : 1 ≤ s) :
    goPageCount c s = 0 ↔ c = 0 := by
  constructor
  · intro h
    by_contra hne
    have hc2 : 0 < c := lt_of_le_of_ne hc (Ne.symm hne)
    have hpos : 0 < goPageCount c s := by
      rw [goPageCount_eq_ceil c s hc hs, Int.ceil_pos]
      apply div_pos
      · exact_mod_cast hc2
      · exact_mod_cast (show (0 : ℤ) < s by omega)
    omega
  · intro h
    subst h
    simp [goPageCount, Int.zero_tdiv, Int.zero_tmod]

/-! Claim theorems. -/

/-- Claim C1 (code evaluated at the failing input): under the default
1-indexed configuration, `totalRowCount = 100`, `pageSize = 25`,
`requestedPage = 1` yields the window `(limit, offset) = (25, 0)` but
`StartRow = 25` and `EndRow = 49`, not the zero-based `StartRow = 0`,
`EndRow = 24` consistent with the offset: `PageQuery` computes StartRow
from the raw requested page, not from the zero-based internal index that
produced the offset. -/
theorem scenarioA_startRow_inconsistent_with_offset :
    pqWindow Config.default 1 25 = (25, 0) ∧
    (PageQuery Config.default 1 25 (unitRows 100) 0 emptyMem).1.map
      Response.StartRow = some 25 ∧
    (PageQuery Config.default 1 25 (unitRows 100) 0 emptyMem).1.map
      Response.EndRow = some 49 ∧
    (PageQuery Config.default 1 25 (unitRows 100) 0 emptyMem).1.map
      Response.PageCount = some 4 ∧
    (PageQuery Config.default 1 25 (unitRows 100) 0 emptyMem).1.map
      Response.FirstPage = some true ∧
    (PageQuery Config.default 1 25 (unitRows 100) 0 emptyMem).1.map
      Response.Empty = some false :=
  ⟨rfl, rfl, rfl, rfl, rfl, rfl⟩

/-- Claim C2 (code evaluated at the failing input): a per-call
`rawPerPage = 0` is replaced by the default only inside `getLimitOffset`
(the fetch still runs, with limit 25), but the page-count computation
divides by the raw `rawPerPage`, so the Go code panics on a zero divisor
and the recovered call returns nil instead of a valid Response. -/
theorem pageQuery_rpp_zero_returns_none :
    pqWindow Config.default 1 0 = (25, 0) ∧
    (PageQuery Config.default 1 0 (unitRows 10) 0 emptyMem).1 = none :=
  ⟨rfl, rfl⟩

/-- Claim C3 (code evaluated at the failing input): `PageQuery` hardcodes
`FirstPage = (page == 1)`, ignoring `Use0AsFirstPage`: under the 0-indexed
convention a request for page 0 returns `FirstPage = false`, and it is
page 1 that gets the flag. -/
theorem firstPage_flag_ignores_zero_convention :
    (PageQuery cfg0idx 0 10 (unitRows 30) 0 emptyMem).1.map
      Response.FirstPage = some false ∧
    (PageQuery cfg0idx 1 10 (unitRows 30) 0 emptyMem).1.map
      Response.FirstPage = some true :=
  ⟨rfl, rfl⟩

/-- Claim C4 (code evaluated at the failing input): under the 0-indexed
convention with 30 rows and pageSize 10, page 2 (the last of the three
pages) gets `offset = 20` as claimed, but `LastPage = false` and
`EndRow = 29`, because `PageQuery` still compares the raw page number
against `PageCount = 3` as in the 1-indexed convention; the out-of-range
page 3 (which fetches zero rows) is the one reported as the non-empty
last page. -/
theorem lastPage_flag_mismatch_zero_convention :
    pqWindow cfg0idx 2 10 = (10, 20) ∧
    (PageQuery cfg0idx 2 10 (unitRows 30) 0 emptyMem).1.map
      Response.LastPage = some false ∧
    (PageQuery cfg0idx 2 10 (unitRows 30) 0 emptyMem).1.map
      Response.EndRow = some 29 ∧
    (PageQuery cfg0idx 3 10 (unitRows 30) 0 emptyMem).1.map
      Response.LastPage = some true ∧
    (PageQuery cfg0idx 3 10 (unitRows 30) 0 emptyMem).1.map
      Response.Empty = some false :=
  ⟨rfl, rfl, rfl, rfl, rfl⟩

/-- Claim C5, counterexample: with the default configuration and a table
of 100 rows, the first-page result (pageNow 1, FirstPage true) has a
previous page (via `GetLastPage`) whose `Empty` flag is false, refuting
the claim that `previousPage()` from the first page yields an empty
page. -/
theorem prev_from_first_page_not_empty_cex :
    (PageQuery Config.default 1 25 (unitRows 100) 0 emptyMem).1
      = some rFirst ∧
    rFirst.PageNow = 1 ∧ rFirst.FirstPage = true ∧
    (Response.GetLastPage Config.default rFirst emptyMem).1.map
      Response.Empty = some false :=
  ⟨rfl, rfl, rfl, rfl⟩

/-- Claim C5, amended: calling `GetLastPage` (the previous page) on a
PageResult whose pageNow is the first page per the configured convention
succeeds without a distinct error, and the result is empty if and only if
the table has no rows; with a nonempty table the result is a non-empty
page covering the clamped offset-0 window. -/
theorem prev_from_first_page_empty_iff_no_rows {T : Type} (cfg : Config)
    (r : Response T) (mem : Nat → List T) (h : 1 ≤ r.RawPerPage)
    (hfirst : r.PageNow = if cfg.use0Page then 0 else 1) :
    ∃ rp, (Response.GetLastPage cfg r mem).1 = some rp ∧
      (rp.Empty = true ↔ dsCount r.handler = 0) := by
  have hne : r.RawPerPage ≠ 0 := by omega
  refine ⟨pageResponse (r.PageNow - 1) r.RawPerPage (dsCount r.handler)
      r.ResultSet r.handler,
    PageQuery_isSome cfg (r.PageNow - 1) r.RawPerPage r.handler r.ResultSet
      mem hne, ?_⟩
  have hc : 0 ≤ dsCount r.handler := dsCount_nonneg r.handler
  have hpc : 0 ≤ goPageCount (dsCount r.handler) r.RawPerPage :=
    goPageCount_nonneg _ _ hc h
  have hp1 : r.PageNow - 1 ≤ 0 := by
    cases hcase : cfg.use0Page <;> rw [hcase] at hfirst <;>
      simp at hfirst <;> omega
  rw [pageResponse_Empty]
  simp only [decide_eq_true_eq]
  constructor
  · rintro (hgt | h0)
    · omega
    · exact h0
  · intro h0
    exact Or.inr h0

/-- Claim C5, witness for the amended theorem at the concrete first-page
result `rFirst`. -/
theorem prev_from_first_page_empty_iff_no_rows_witness :
    ∃ rp, (Response.GetLastPage Config.default rFirst emptyMem).1 = some rp ∧
      (rp.Empty = true ↔ dsCount rFirst.handler = 0) :=
  prev_from_first_page_empty_iff_no_rows Config.default rFirst emptyMem
    (by decide) (by decide)

/-- Claim C6: for every data source (so every totalRowCount ≥ 0) and every
pageSize ≥ 1, the returned PageCount is the ceiling of
totalRowCount / pageSize, and it is 0 exactly when the table is empty. -/
theorem pageCount_eq_ceil {T : Type} (cfg : Config) (page rpp : ℤ)
    (ds : DataSource T) (ptr : Nat) (mem : Nat → List T) (h : 1 ≤ rpp) :
    ∃ r, (PageQuery cfg page rpp ds ptr mem).1 = some r ∧
      r.PageCount = ⌈(dsCount ds : ℚ) / (rpp : ℚ)⌉ ∧
      (r.PageCount = 0 ↔ dsCount ds = 0) := by
  have hc : 0 ≤ dsCount ds := dsCount_nonneg ds
  refine ⟨pageResponse page rpp (dsCount ds) ptr ds,
    PageQuery_isSome cfg page rpp ds ptr mem (by omega), ?_, ?_⟩
  · rw [pageResponse_PageCount]
    exact goPageCount_eq_ceil (dsCount ds) rpp hc h
  · rw [pageResponse_PageCount]
    exact goPageCount_eq_zero_iff (dsCount ds) rpp hc h

/-- Claim C6, witness at totalRowCount 100, pageSize 25. -/
theorem pageCount_eq_ceil_witness :
    ∃ r, (PageQuery Config.default 1 25 (unitRows 100) 0 emptyMem).1
        = some r ∧
      r.PageCount = ⌈(dsCount (unitRows 100) : ℚ) / ((25 : ℤ) : ℚ)⌉ ∧
      (r.PageCount = 0 ↔ dsCount (unitRows 100) = 0) :=
  pageCount_eq_ceil Config.default 1 25 (unitRows 100) 0 emptyMem (by decide)

/-- Claim C7: for every fetch with pageSize ≥ 1, the Empty flag holds
exactly when the requested page exceeds the returned PageCount or the
table has no rows, and an empty result has StartRow = EndRow = 0. -/
theorem empty_iff_out_of_range_or_no_rows {T : Type} (cfg : Config)
    (page rpp : ℤ) (ds : DataSource T) (ptr : Nat) (mem : Nat → List T)
    (h : 1 ≤ rpp) :
    ∃ r, (PageQuery cfg page rpp ds ptr mem).1 = some r ∧
      (r.Empty = true ↔ (page > r.PageCount ∨ dsCount ds = 0)) ∧
      (r.Empty = true → r.StartRow = 0 ∧ r.EndRow = 0) := by
  refine ⟨pageResponse page rpp (dsCount ds) ptr ds,
    PageQuery_isSome cfg page rpp ds ptr mem (by omega), ?_, ?_⟩
  · rw [pageResponse_Empty, pageResponse_PageCount]
    simp
  · intro he
    rw [pageResponse_Empty] at he
    have hprop : page > goPageCount (dsCount ds) rpp ∨ dsCount ds = 0 := by
      simpa using he
    constructor
    · rw [pageResponse_StartRow, if_neg (not_not_intro hprop)]
    · rw [pageResponse_EndRow, if_neg (not_not_intro hprop)]

/-- Claim C7, witness at requestedPage 10 against 100 rows with
pageSize 25 (an out-of-range page). -/
theorem empty_iff_out_of_range_or_no_rows_witness :
    ∃ r, (PageQuery Config.default 10 25 (unitRows 100) 0 emptyMem).1
        = some r ∧
      (r.Empty = true ↔ ((10 : ℤ) > r.PageCount ∨ dsCount (unitRows 100) = 0)) ∧
      (r.Empty = true → r.StartRow = 0 ∧ r.EndRow = 0) :=
  empty_iff_out_of_range_or_no_rows Config.default 10 25 (unitRows 100) 0
    emptyMem (by decide)

/-- Claim C8, counterexample: fetching page 1 of a two-row table with
pageSize 1 stores `[true]` in the destination buffer; `GetNextPage` on
that result reuses the same buffer as the destination of its own fetch,
overwriting the items the original PageResult references with `[false]`. -/
theorem navigation_overwrites_items_buffer_cex :
    (PageQuery Config.default 1 1 dsPair 0 memB).1 = some r8 ∧
    mem8 r8.ResultSet = [true] ∧
    (Response.GetNextPage Config.default r8 mem8).2 r8.ResultSet
      = [false] :=
  ⟨rfl, rfl, rfl⟩

/-- Claim C8, amended: each navigation method (`GetNextPage`,
`GetLastPage`, `GetEndPage`, `GetFirstPage`) constructs and returns a new
PageResult and does not modify any field of the receiver, but it passes
the buffer the receiver references as the destination of the new fetch:
the new PageResult shares that buffer, the store changes only at that
buffer, and its contents are overwritten with the target page of rows. -/
theorem navigation_new_response_shared_buffer {T : Type} (cfg : Config)
    (r : Response T) (mem : Nat → List T) (h : r.RawPerPage ≠ 0) :
    (∃ rn, (Response.GetNextPage cfg r mem).1 = some rn ∧
      rn.ResultSet = r.ResultSet ∧
      (Response.GetNextPage cfg r mem).2 = fun n => if n = r.ResultSet
        then fetchRange r.handler (pqWindow cfg (r.PageNow + 1) r.RawPerPage).1
          (pqWindow cfg (r.PageNow + 1) r.RawPerPage).2
        else mem n) ∧
    (∃ rp, (Response.GetLastPage cfg r mem).1 = some rp ∧
      rp.ResultSet = r.ResultSet ∧
      (Response.GetLastPage cfg r mem).2 = fun n => if n = r.ResultSet
        then fetchRange r.handler (pqWindow cfg (r.PageNow - 1) r.RawPerPage).1
          (pqWindow cfg (r.PageNow - 1) r.RawPerPage).2
        else mem n) ∧
    (∃ re, (Response.GetEndPage cfg r mem).1 = some re ∧
      re.ResultSet = r.ResultSet ∧
      (Response.GetEndPage cfg r mem).2 = fun n => if n = r.ResultSet
        then fetchRange r.handler (pqWindow cfg r.PageCount r.RawPerPage).1
          (pqWindow cfg r.PageCount r.RawPerPage).2
        else mem n) ∧
    (∃ rf, (Response.GetFirstPage cfg r mem).1 = some rf ∧
      rf.ResultSet = r.ResultSet ∧
      (Response.GetFirstPage cfg r mem).2 = fun n => if n = r.ResultSet
        then fetchRange r.handler
          (pqWindow cfg (if cfg.use0Page then 0 else 1) r.RawPerPage).1
          (pqWindow cfg (if cfg.use0Page then 0 else 1) r.RawPerPage).2
        else mem n) := by
  refine ⟨⟨pageResponse (r.PageNow + 1) r.RawPerPage (dsCount r.handler)
      r.ResultSet r.handler,
    PageQuery_isSome cfg (r.PageNow + 1) r.RawPerPage r.handler r.ResultSet
      mem h, rfl,
    PageQuery_snd cfg (r.PageNow + 1) r.RawPerPage r.handler r.ResultSet mem⟩,
    ⟨pageResponse (r.PageNow - 1) r.RawPerPage (dsCount r.handler)
      r.ResultSet r.handler,
    PageQuery_isSome cfg (r.PageNow - 1) r.RawPerPage r.handler r.ResultSet
      mem h, rfl,
    PageQuery_snd cfg (r.PageNow - 1) r.RawPerPage r.handler r.ResultSet mem⟩,
    ⟨pageResponse r.PageCount r.RawPerPage (dsCount r.handler)
      r.ResultSet r.handler,
    PageQuery_isSome cfg r.PageCount r.RawPerPage r.handler r.ResultSet
      mem h, rfl,
    PageQuery_snd cfg r.PageCount r.RawPerPage r.handler r.ResultSet mem⟩,
    ⟨pageResponse (if cfg.use0Page then 0 else 1) r.RawPerPage
      (dsCount r.handler) r.ResultSet r.handler,
    PageQuery_isSome cfg (if cfg.use0Page then 0 else 1) r.RawPerPage
      r.handler r.ResultSet mem h, rfl,
    PageQuery_snd cfg (if cfg.use0Page then 0 else 1) r.RawPerPage r.handler
      r.ResultSet mem⟩⟩

/-- Claim C8, witness for the amended theorem at the concrete result
`r8` and store `mem8`. -/
theorem navigation_new_response_shared_buffer_witness :
    (∃ rn, (Response.GetNextPage Config.default r8 mem8).1 = some rn ∧
      rn.ResultSet = r8.ResultSet ∧
      (Response.GetNextPage Config.default r8 mem8).2
        = fun n => if n = r8.ResultSet
          then fetchRange r8.handler
            (pqWindow Config.default (r8.PageNow + 1) r8.RawPerPage).1
            (pqWindow Config.default (r8.PageNow + 1) r8.RawPerPage).2
          else mem8 n) ∧
    (∃ rp, (Response.GetLastPage Config.default r8 mem8).1 = some rp ∧
      rp.ResultSet = r8.ResultSet ∧
      (Response.GetLastPage Config.default r8 mem8).2
        = fun n => if n = r8.ResultSet
          then fetchRange r8.handler
            (pqWindow Config.default (r8.PageNow - 1) r8.RawPerPage).1
            (pqWindow Config.default (r8.PageNow - 1) r8.RawPerPage).2
          else mem8 n) ∧
    (∃ re, (Response.GetEndPage Config.default r8 mem8).1 = some re ∧
      re.ResultSet = r8.ResultSet ∧
      (Response.GetEndPage Config.default r8 mem8).2
        = fun n => if n = r8.ResultSet
          then fetchRange r8.handler
            (pqWindow Config.default r8.PageCount r8.RawPerPage).1
            (pqWindow Config.default r8.PageCount r8.RawPerPage).2
          else mem8 n) ∧
    (∃ rf, (Response.GetFirstPage Config.default r8 mem8).1 = some rf ∧
      rf.ResultSet = r8.ResultSet ∧
      (Response.GetFirstPage Config.default r8 mem8).2
        = fun n => if n = r8.ResultSet
          then fetchRange r8.handler
            (pqWindow Config.default
              (if Config.default.use0Page then 0 else 1) r8.RawPerPage).1
            (pqWindow Config.default
              (if Config.default.use0Page then 0 else 1) r8.RawPerPage).2
          else mem8 n) :=
  navigation_new_response_shared_buffer Config.default r8 mem8 (by decide)

/-- Claim C9: fetching page p, then the next page, then the previous page
of that, yields a PageResult with the same PageNow, PageCount and RawCount
as the original (the data source is fixed across the three calls). -/
theorem next_prev_roundtrip_preserves_fields {T : Type} (cfg : Config)
    (p rpp : ℤ) (ds : DataSource T) (ptr : Nat) (mem : Nat → List T)
    (h : 1 ≤ rpp) :
    ∃ r r2 r3,
      (PageQuery cfg p rpp ds ptr mem).1 = some r ∧
      (Response.GetNextPage cfg r (PageQuery cfg p rpp ds ptr mem).2).1
        = some r2 ∧
      (Response.GetLastPage cfg r2
        (Response.GetNextPage cfg r (PageQuery cfg p rpp ds ptr mem).2).2).1
        = some r3 ∧
      r3.PageNow = r.PageNow ∧ r3.PageCount = r.PageCount ∧
      r3.RawCount = r.RawCount := by
  have hne : rpp ≠ 0 := by omega
  refine ⟨pageResponse p rpp (dsCount ds) ptr ds,
    pageResponse (p + 1) rpp (dsCount ds) ptr ds,
    pageResponse (p + 1 - 1) rpp (dsCount ds) ptr ds,
    PageQuery_isSome cfg p rpp ds ptr mem hne, ?_, ?_, ?_, rfl, rfl⟩
  · exact PageQuery_isSome cfg (p + 1) rpp ds ptr _ hne
  · exact PageQuery_isSome cfg (p + 1 - 1) rpp ds ptr _ hne
  · rw [pageResponse_PageNow, pageResponse_PageNow]
    omega

/-- Claim C9, witness at page 1, pageSize 25, 100 rows. -/
theorem next_prev_roundtrip_preserves_fields_witness :
    ∃ r r2 r3,
      (PageQuery Config.default 1 25 (unitRows 100) 0 emptyMem).1
        = some r ∧
      (Response.GetNextPage Config.default r
        (PageQuery Config.default 1 25 (unitRows 100) 0 emptyMem).2).1
        = some r2 ∧
      (Response.GetLastPage Config.default r2
        (Response.GetNextPage Config.default r
          (PageQuery Config.default 1 25 (unitRows 100) 0 emptyMem).2).2).1
        = some r3 ∧
      r3.PageNow = r.PageNow ∧ r3.PageCount = r.PageCount ∧
      r3.RawCount = r.RawCount :=
  next_prev_roundtrip_preserves_fields Config.default 1 25 (unitRows 100) 0
    emptyMem (by decide)

/-- Claim C10: with an empty table and requestedPage 0 (any pageSize ≥ 1,
any configuration), the returned Response has Empty = true and
LastPage = true at the same time: the two flags are not mutually
exclusive. -/
theorem empty_table_page_zero_empty_and_last {T : Type} (cfg : Config)
    (rpp : ℤ) (ds : DataSource T) (ptr : Nat) (mem : Nat → List T)
    (h : 1 ≤ rpp) (h0 : dsCount ds = 0) :
    ∃ r, (PageQuery cfg 0 rpp ds ptr mem).1 = some r ∧
      r.Empty = true ∧ r.LastPage = true := by
  refine ⟨pageResponse 0 rpp (dsCount ds) ptr ds,
    PageQuery_isSome cfg 0 rpp ds ptr mem (by omega), ?_, ?_⟩
  · rw [pageResponse_Empty, h0]
    simp
  · rw [pageResponse_LastPage, h0]
    simp [goPageCount, Int.zero_tdiv, Int.zero_tmod]

/-- Claim C10, witness at an empty table with pageSize 25. -/
theorem empty_table_page_zero_empty_and_last_witness :
    ∃ r, (PageQuery Config.default 0 25 (unitRows 0) 0 emptyMem).1
        = some r ∧ r.Empty = true ∧ r.LastPage = true :=
  empty_table_page_zero_empty_and_last Config.default 25 (unitRows 0) 0
    emptyMem (by decide) (by decide)

end Pageable
